import Mathlib

/-!
Verification development for the Scorbot serial command/response engine:
a shallow embedding of the serial handler, the mock (simulated) transport
and the response-collection loop, with theorems checking the stated
behavioural properties against the embedded code.
-/

namespace Scorbot

/-- Checks whether the first list is an initial segment of the second
(used to express Python's substring test `needle in hay`). -/
def leadsWith : List Char → List Char → Bool
  | [], _ => true
  | _ :: _, [] => false
  | a :: as, b :: bs => (a == b) && leadsWith as bs

/-- Substring containment on character lists: `subIn needle hay` is true
iff `needle` occurs contiguously inside `hay`. -/
def subIn : List Char → List Char → Bool
  | needle, [] => leadsWith needle []
  | needle, h :: t => leadsWith needle (h :: t) || subIn needle t

/-- Python's `needle in hay` test on strings. -/
def strContains (hay needle : String) : Bool :=
  subIn needle.data hay.data

/-- Python's `str.upper()` (ASCII case mapping, character by character). -/
def pyUpper (s : String) : String :=
  String.mk (s.data.map Char.toUpper)

/-- Accumulator-based splitting of a character list on whitespace runs,
dropping empty tokens: the semantics of Python's `str.split()` with no
arguments. -/
def splitWsAux : List Char → List Char → List (List Char)
  | acc, [] => if acc = [] then [] else [acc.reverse]
  | acc, c :: rest =>
    if c.isWhitespace then
      if acc = [] then splitWsAux [] rest
      else acc.reverse :: splitWsAux [] rest
    else splitWsAux (c :: acc) rest

/-- Python's `command.split()`: whitespace-separated tokens, no empties. -/
def pySplit (s : String) : List String :=
  (splitWsAux [] s.data).map String.mk

/-- The normalized keyword of a raw command text: first whitespace token,
uppercased (`command.split()[0].upper()` in the source), or `none` when the
text has no token at all. -/
def keyword_of (s : String) : Option String :=
  (pySplit s).head?.map pyUpper

/-- Decoding of a received byte sequence exactly as
`line_bytes.decode('ascii', errors='ignore')` does it: bytes below 0x80
become the corresponding character, all other bytes are silently dropped. -/
def decode_ascii_ignore : List Nat → List Char
  | [] => []
  | b :: rest =>
    if b < 128 then Char.ofNat b :: decode_ascii_ignore rest
    else decode_ascii_ignore rest

/-- Modelled from the spec: the decoding the specification describes
(`errors='replace'` semantics), in which every invalid byte is replaced by
the substitution character U+FFFD instead of being dropped.  Present only
to compare against `decode_ascii_ignore`, the decoding the code performs. -/
def decode_ascii_replace : List Nat → List Char
  | [] => []
  | b :: rest =>
    (if b < 128 then Char.ofNat b else Char.ofNat 0xFFFD) :: decode_ascii_replace rest

/-- One iteration of the reader worker's line handling
(`serial_handler.py`, `_read_serial_loop`): decode leniently, trim,
and append to the buffer only when non-empty. -/
def read_line_step (buf : List String) (line_bytes : List Nat) : List String :=
  let line := (String.mk (decode_ascii_ignore line_bytes)).trim
  if line ≠ "" then buf ++ [line] else buf

/-- State of the physical-transport handler (`serial_handler.py`,
class `SerialHandler`).  The pyserial port object is abstracted to
`Option Bool`: `none` when `self.ser is None`, `some b` when a port object
exists with `is_open = b`.  `written` logs the byte sequences passed to
`self.ser.write`, so that "performs no write" is observable.  Channel-level
write failures (timeouts) are environmental and not modelled; the encode
step's possible `UnicodeEncodeError` (caught by the code, which then
returns `False`) is. -/
structure SerialHandler where
  ser : Option Bool
  receive_buffer : List String
  written : List (List Nat)
deriving DecidableEq

/-- The freshly constructed handler (`SerialHandler.__init__`). -/
def SerialHandler.mkInit : SerialHandler :=
  { ser := none, receive_buffer := [], written := [] }

/-- `SerialHandler.is_connected`: the port exists and is open. -/
def SerialHandler.is_connected (s : SerialHandler) : Bool :=
  match s.ser with
  | some true => true
  | _ => false

/-- `SerialHandler.send_command`: when connected, frame the command with a
trailing CR, encode as ASCII and write it (one write call), returning
`True`; encoding of a non-ASCII character raises, is caught, and yields
`False` with nothing written; when not connected, return `False`
immediately with no state change. -/
def SerialHandler.send_command (s : SerialHandler) (command : String) :
    Bool × SerialHandler :=
  if s.is_connected = true then
    let full_command := command ++ "\r"
    if full_command.data.all (fun c => c.toNat < 128) then
      (true, { s with written := s.written ++ [full_command.data.map Char.toNat] })
    else
      (false, s)
  else
    (false, s)

/-- `SerialHandler.get_received_line`: pop the oldest buffered line
(FIFO), or `none` when the buffer is empty. -/
def SerialHandler.get_received_line (s : SerialHandler) :
    Option String × SerialHandler :=
  match s.receive_buffer with
  | [] => (none, s)
  | l :: rest => (some l, { s with receive_buffer := rest })

/-- `SerialHandler.get_buffer_snapshot`: a copy of the current buffer
contents, without mutation. -/
def SerialHandler.get_buffer_snapshot (s : SerialHandler) : List String :=
  s.receive_buffer

/-- The buffer-level pop both handlers implement
(`self.receive_buffer.pop(0)` guarded by a non-emptiness test). -/
def bufPop : List String → Option String × List String
  | [] => (none, [])
  | x :: xs => (some x, xs)

/-- `n` sequential pops: the list of results in order, and the remaining
buffer. -/
def popN : Nat → List String → List (Option String) × List String
  | 0, buf => ([], buf)
  | n + 1, buf =>
    let pr := bufPop buf
    let rest := popN n pr.2
    (pr.1 :: rest.1, rest.2)

/-- A consumer operation on the response buffer: destructive pop or
non-destructive snapshot. -/
inductive BufOp where
  | pop : BufOp
  | snap : BufOp
deriving DecidableEq

/-- Runs a sequence of buffer operations, returning the pop results in
order, the snapshot results in order, and the final buffer. -/
def runBufOps : List BufOp → List String → (List (Option String) × List (List String) × List String)
  | [], buf => ([], [], buf)
  | BufOp.pop :: ops, buf =>
    let pr := bufPop buf
    let rest := runBufOps ops pr.2
    (pr.1 :: rest.1, rest.2.1, rest.2.2)
  | BufOp.snap :: ops, buf =>
    let rest := runBufOps ops buf
    (rest.1, buf :: rest.2.1, rest.2.2)

/-- State of the simulated transport (`mock_serial_handler.py`,
class `MockSerialHandler`). -/
structure MockSerialHandler where
  _is_connected : Bool
  receive_buffer : List String
  last_sent_command : Option String
  mock_joint_values : List Int
deriving DecidableEq

/-- The freshly constructed mock handler (`MockSerialHandler.__init__`). -/
def MockSerialHandler.mkInit : MockSerialHandler :=
  { _is_connected := false
    receive_buffer := []
    last_sent_command := none
    mock_joint_values := [1111, -2222, 3333, -4444, 5555] }

/-- `MockSerialHandler.connect`: marks the transport connected and
enqueues the two onboarding lines.  Always returns `True`. -/
def MockSerialHandler.connect (s : MockSerialHandler) : Bool × MockSerialHandler :=
  (true, { s with
    _is_connected := true
    receive_buffer := s.receive_buffer ++ ["Scorbot Mock Interface Ready.", "OK"] })

/-- `MockSerialHandler.disconnect`: marks disconnected and clears the
buffer. -/
def MockSerialHandler.disconnect (s : MockSerialHandler) : MockSerialHandler :=
  { s with _is_connected := false, receive_buffer := [] }

/-- The fixed scripted line sequence for `HOME`. -/
def homeLines : List String :=
  ["Executing HOME...", "Axis 1 homed.", "Axis 2 homed.", "Axis 3 homed.",
   "Axis 4 homed.", "Axis 5 homed.", "Homing complete(robot)", "OK"]

/-- One per-axis line of the `LISTPV POSITION` reply
(`f"Axis {i+1} = {val} counts"`, with `i` the zero-based axis index). -/
def axisLine (i : Nat) (v : Int) : String :=
  s!"Axis {i + 1} = {v} counts"

/-- The axis lines of the `LISTPV POSITION` reply, one per entry of the
current joint vector, in axis order. -/
def positionLines (vals : List Int) : List String :=
  vals.enum.map (fun iv => axisLine iv.1 iv.2)

/-- The `elif` dispatch chain of `MockSerialHandler.send_command`
(`mock_serial_handler.py`, lines 44–113), acting on the state with
`last_sent_command` already recorded: `base_command` is the uppercased
first token of the command, `rest` the remaining tokens. -/
def mockDispatch (s : MockSerialHandler) (base_command : String)
    (rest : List String) : Bool × MockSerialHandler :=
  if base_command = "HOME" then
    (true, { s with receive_buffer := s.receive_buffer ++ homeLines })
  else if base_command = "LISTPV" ∧ rest.head?.map pyUpper = some "POSITION" then
    (true, { s with receive_buffer :=
      s.receive_buffer ++ ("Position POSITION :" ::
        positionLines s.mock_joint_values ++ ["OK"]) })
  else if base_command = "LISTPV" ∧ rest ≠ [] then
    let pos_name := rest.headD ""
    (true, { s with receive_buffer :=
      s.receive_buffer ++ (s!"Position {pos_name} :" ::
        ["Axis 1 = 1000 counts", "Axis 2 = 2000 counts", "Axis 3 = 3000 counts",
         "Axis 4 = 4000 counts", "Axis 5 = 5000 counts", "OK"]) })
  else if base_command = "DEFP" then
    (true, { s with receive_buffer := s.receive_buffer ++ ["OK"] })
  else if base_command = "SETPV" ∧ rest ≠ [] then
    (true, { s with receive_buffer := s.receive_buffer ++
      ((List.range 5).map (fun i => s!"Enter Axis {i + 1} value:") ++ ["OK"]) })
  else if base_command = "EDIT" then
    (true, { s with receive_buffer := s.receive_buffer ++ ["Entering EDIT mode.", "OK"] })
  else if base_command = "EXIT" then
    (true, { s with receive_buffer := s.receive_buffer ++ ["Exiting EDIT mode.", "OK"] })
  else if base_command = "RUN" then
    (true, { s with receive_buffer := s.receive_buffer ++
      ["Running program...", "Program complete.", "OK"] })
  else if base_command = "SPEED" then
    (true, { s with receive_buffer := s.receive_buffer ++ ["OK"] })
  else if base_command = "MOVED" ∨ base_command = "MOVELD" then
    (true, { s with
      mock_joint_values := s.mock_joint_values.map (fun v => v + 100)
      receive_buffer := s.receive_buffer ++ ["Executing move...", "Move complete.", "OK"] })
  else if base_command = "STATUS" ∨ base_command = "WHERE" then
    (true, { s with receive_buffer := s.receive_buffer ++
      ["STATUS: Ready, Speed=50, Pos=(Simulated)", "OK"] })
  else if base_command = "OPEN" ∨ base_command = "CLOSE" then
    (true, { s with receive_buffer := s.receive_buffer ++ ["OK"] })
  else
    (true, { s with receive_buffer := s.receive_buffer ++
      ["ERROR: Unknown command in mock"] })

/-- `MockSerialHandler.send_command`: returns `none` where the Python code
raises (indexing `command.split()[0]` of a whitespace-only command), and
otherwise `some (ok, s')` for the returned boolean and the updated state.
When not connected it returns `False` at once, before any parsing or
mutation; otherwise it records the uppercased command and runs the
dispatch chain on the first token. -/
def MockSerialHandler.send_command (s : MockSerialHandler) (command : String) :
    Option (Bool × MockSerialHandler) :=
  if s._is_connected = false then
    some (false, s)
  else
    match pySplit command with
    | [] => none
    | p0 :: rest =>
      some (mockDispatch
        { s with last_sent_command := some (pyUpper command) } (pyUpper p0) rest)

/-- `MockSerialHandler.send_value`: returns `False` when disconnected,
`True` otherwise; never changes the state. -/
def MockSerialHandler.send_value (s : MockSerialHandler) : Bool × MockSerialHandler :=
  (s._is_connected, s)

/-- `MockSerialHandler.get_received_line`: pop the oldest simulated line. -/
def MockSerialHandler.get_received_line (s : MockSerialHandler) :
    Option String × MockSerialHandler :=
  match s.receive_buffer with
  | [] => (none, s)
  | l :: rest => (some l, { s with receive_buffer := rest })

/-- `MockSerialHandler.get_buffer_snapshot`: a copy of the buffer. -/
def MockSerialHandler.get_buffer_snapshot (s : MockSerialHandler) : List String :=
  s.receive_buffer

/-- `MockSerialHandler.is_connected`. -/
def MockSerialHandler.is_connected (s : MockSerialHandler) : Bool :=
  s._is_connected

/-- `SERIAL_RESPONSE_TIMEOUT` (90 s), in milliseconds. -/
def SERIAL_RESPONSE_TIMEOUT : Nat := 90000

/-- `SERIAL_INTER_MESSAGE_TIMEOUT` (1.5 s), in milliseconds. -/
def SERIAL_INTER_MESSAGE_TIMEOUT : Nat := 1500

/-- The literal completion marker the collector looks for after `HOME`. -/
def homeMarker : String := "Homing complete(robot)"

/-- One iteration's worth of environment input to the collection loop of
`wait_for_serial_response` (`main.py`): `tCheck` is the clock reading at
the overall-timeout check, `popped` the result of `get_received_line`,
`finalPop` the result of the single extra pop performed only on the HOME
early-termination path, and `tAfter` the clock reading taken after the
pop (either to reset `last_rx_time`, or at the inter-message check).
Times are in milliseconds; a physical clock is monotone, but the loop is
modelled over arbitrary readings. -/
structure PollStep where
  tCheck : Nat
  popped : Option String
  finalPop : Option String
  tAfter : Nat
deriving DecidableEq

/-- The loop's exit state: collected lines and the three exit conditions
(overall timeout flag, inter-message timeout flag, and whether the HOME
early-termination `break` was taken). -/
structure CollectResult where
  responses : List String
  timed_out : Bool
  inter_message_timed_out : Bool
  early_break : Bool
deriving DecidableEq

/-- The `while True` loop of `wait_for_serial_response`, driven by a trace
of per-iteration environment inputs; `none` when the trace runs out before
the loop exits. `resp` accumulates `responses`, `lastRx` is
`last_rx_time`; both start as `[]` and `start_time`. -/
def collectLoop (sent_command : String) (start_time : Nat) :
    List String → Nat → List PollStep → Option CollectResult
  | _, _, [] => none
  | resp, lastRx, step :: rest =>
    if step.tCheck - start_time > SERIAL_RESPONSE_TIMEOUT then
      some { responses := resp, timed_out := true
             inter_message_timed_out := false, early_break := false }
    else
      match step.popped with
      | some line =>
        let resp' := resp ++ [line]
        if pyUpper sent_command = "HOME" ∧ strContains line homeMarker = true then
          some { responses := resp' ++ step.finalPop.toList
                 timed_out := false, inter_message_timed_out := false
                 early_break := true }
        else
          collectLoop sent_command start_time resp' step.tAfter rest
      | none =>
        if step.tAfter - lastRx > SERIAL_INTER_MESSAGE_TIMEOUT then
          some { responses := resp, timed_out := false
                 inter_message_timed_out := decide (resp ≠ [])
                 early_break := false }
        else
          collectLoop sent_command start_time resp lastRx rest

/-- `wait_for_serial_response` as a function of the sent command, the
session start time and the environment trace. -/
def wait_for_serial_response (sent_command : String) (start_time : Nat)
    (trace : List PollStep) : Option CollectResult :=
  collectLoop sent_command start_time [] start_time trace

/-- The classified outcome the tail of `wait_for_serial_response` builds
from the loop's exit state (`main.py`, lines 81–97): collected lines with
an overall-timeout note, with an inter-message-timeout note, or plain; or
one of the two empty outcomes — the explicit timeout message
(`EmptyTimeout`) or the fallback "received no response" message. -/
inductive SerialOutcome where
  | linesOverallNote : List String → SerialOutcome
  | linesInterNote : List String → SerialOutcome
  | linesPlain : List String → SerialOutcome
  | emptyTimeout : SerialOutcome
  | emptyFallback : SerialOutcome
deriving DecidableEq

/-- Formatting of the loop's exit state into the returned outcome. -/
def formatResult (r : CollectResult) : SerialOutcome :=
  if r.responses ≠ [] then
    if r.timed_out = true then SerialOutcome.linesOverallNote r.responses
    else if r.inter_message_timed_out = true then SerialOutcome.linesInterNote r.responses
    else SerialOutcome.linesPlain r.responses
  else if r.timed_out = true then SerialOutcome.emptyTimeout
  else SerialOutcome.emptyFallback

/-- What a dispatched command produces at the orchestration layer
(`main.py`, lines 372–386): a collection session is started only when
`send_command` returned `True`; a `False` send yields a failure note and
no session. -/
inductive DispatchResult where
  | notSent : DispatchResult
  | collected : CollectResult → DispatchResult
deriving DecidableEq

/-- Dispatch-then-collect against the simulated transport: `none` when
either the send raised or the collection trace was exhausted. -/
def gemini_dispatch (m : MockSerialHandler) (cmd : String) (start_time : Nat)
    (trace : List PollStep) : Option (DispatchResult × MockSerialHandler) :=
  match MockSerialHandler.send_command m cmd with
  | none => none
  | some (true, m') =>
    (wait_for_serial_response cmd start_time trace).map
      (fun r => (DispatchResult.collected r, m'))
  | some (false, m') => some (DispatchResult.notSent, m')

/-- The set of base keywords the simulated transport's `send_command`
dispatch chain recognizes. -/
def mockRecognized : List String :=
  ["HOME", "LISTPV", "DEFP", "SETPV", "EDIT", "EXIT", "RUN", "SPEED",
   "MOVED", "MOVELD", "STATUS", "WHERE", "OPEN", "CLOSE"]

/-- The mock handler right after `connect` on a fresh instance: the state
every simulated session starts from. -/
def mockReady : MockSerialHandler :=
  (MockSerialHandler.connect MockSerialHandler.mkInit).2

/- ## Helper lemmas -/

theorem char_toNat_ofNat_lt (b : Nat) (h : b < 128) : (Char.ofNat b).toNat = b := by
  unfold Char.ofNat
  rw [dif_pos]
  · rfl
  · exact Or.inl (by omega)

theorem toUpper_ws_self (c : Char) (h : c.isWhitespace = true) : c.toUpper = c := by
  simp only [Char.isWhitespace, Bool.or_eq_true, decide_eq_true_eq] at h
  rcases h with ((h | h) | h) | h <;> subst h <;> decide

theorem splitWsAux_all_nonws :
    ∀ (l acc : List Char), (∀ c ∈ l, c.isWhitespace = false) →
      splitWsAux acc l = if acc.reverse ++ l = [] then [] else [acc.reverse ++ l] := by
  intro l
  induction l with
  | nil =>
    intro acc _
    simp [splitWsAux]
  | cons c cs ih =>
    intro acc hall
    have hc : c.isWhitespace = false := hall c (by simp)
    have hrest : ∀ d ∈ cs, d.isWhitespace = false := fun d hd => hall d (by simp [hd])
    unfold splitWsAux
    rw [hc]
    simp only [Bool.false_eq_true, if_false]
    rw [ih (c :: acc) hrest]
    simp

theorem pySplit_of_no_ws (cmd : String) (hne : cmd.data ≠ [])
    (hall : ∀ c ∈ cmd.data, c.isWhitespace = false) : pySplit cmd = [cmd] := by
  unfold pySplit
  rw [splitWsAux_all_nonws cmd.data [] hall]
  simp only [List.reverse_nil, List.nil_append, hne, if_false]
  rfl

theorem upper_home_split (cmd : String) (h : pyUpper cmd = "HOME") :
    pySplit cmd = [cmd] := by
  have hdata : cmd.data.map Char.toUpper = "HOME".data := congrArg String.data h
  apply pySplit_of_no_ws
  · intro hnil
    rw [hnil] at hdata
    exact absurd hdata (by decide)
  · intro c hc
    by_contra hw
    have hwt : c.isWhitespace = true := by
      revert hw
      cases c.isWhitespace <;> simp
    have hfix : Char.toUpper c = c := toUpper_ws_self c hwt
    have hmem : c ∈ "HOME".data := by
      rw [← hfix, ← hdata]
      exact List.mem_map_of_mem _ hc
    have hnw : c.isWhitespace = false := by
      have hH : "HOME".data = ['H', 'O', 'M', 'E'] := rfl
      rw [hH] at hmem
      simp only [List.mem_cons, List.not_mem_nil, or_false] at hmem
      rcases hmem with h' | h' | h' | h' <;> subst h' <;> decide
    rw [hnw] at hwt
    cases hwt

theorem upper_ne_home_of_kw (cmd p0 : String) (rest : List String)
    (hsplit : pySplit cmd = p0 :: rest) (hk : pyUpper p0 ≠ "HOME") :
    pyUpper cmd ≠ "HOME" := by
  intro h
  rw [upper_home_split cmd h] at hsplit
  injection hsplit with h1 _
  exact hk (h1 ▸ h)

theorem send_command_connected (s : MockSerialHandler) (cmd p0 : String)
    (rest : List String) (hc : s._is_connected = true)
    (hsplit : pySplit cmd = p0 :: rest) :
    MockSerialHandler.send_command s cmd =
      some (mockDispatch { s with last_sent_command := some (pyUpper cmd) }
        (pyUpper p0) rest) := by
  unfold MockSerialHandler.send_command
  rw [if_neg (by simp [hc]), hsplit]

theorem mockDispatch_spec (s : MockSerialHandler) (base : String)
    (rest : List String) :
    (mockDispatch s base rest).1 = true ∧
    (mockDispatch s base rest).2._is_connected = s._is_connected ∧
    (mockDispatch s base rest).2.last_sent_command = s.last_sent_command ∧
    ((mockDispatch s base rest).2.mock_joint_values = s.mock_joint_values ∨
      ((mockDispatch s base rest).2.mock_joint_values =
          s.mock_joint_values.map (fun v => v + 100) ∧
        (base = "MOVED" ∨ base = "MOVELD"))) := by
  unfold mockDispatch
  by_cases h1 : base = "HOME"
  · rw [if_pos h1]
    exact ⟨rfl, rfl, rfl, Or.inl rfl⟩
  rw [if_neg h1]
  by_cases h2 : base = "LISTPV" ∧ rest.head?.map pyUpper = some "POSITION"
  · rw [if_pos h2]
    exact ⟨rfl, rfl, rfl, Or.inl rfl⟩
  rw [if_neg h2]
  by_cases h3 : base = "LISTPV" ∧ rest ≠ []
  · rw [if_pos h3]
    exact ⟨rfl, rfl, rfl, Or.inl rfl⟩
  rw [if_neg h3]
  by_cases h4 : base = "DEFP"
  · rw [if_pos h4]
    exact ⟨rfl, rfl, rfl, Or.inl rfl⟩
  rw [if_neg h4]
  by_cases h5 : base = "SETPV" ∧ rest ≠ []
  · rw [if_pos h5]
    exact ⟨rfl, rfl, rfl, Or.inl rfl⟩
  rw [if_neg h5]
  by_cases h6 : base = "EDIT"
  · rw [if_pos h6]
    exact ⟨rfl, rfl, rfl, Or.inl rfl⟩
  rw [if_neg h6]
  by_cases h7 : base = "EXIT"
  · rw [if_pos h7]
    exact ⟨rfl, rfl, rfl, Or.inl rfl⟩
  rw [if_neg h7]
  by_cases h8 : base = "RUN"
  · rw [if_pos h8]
    exact ⟨rfl, rfl, rfl, Or.inl rfl⟩
  rw [if_neg h8]
  by_cases h9 : base = "SPEED"
  · rw [if_pos h9]
    exact ⟨rfl, rfl, rfl, Or.inl rfl⟩
  rw [if_neg h9]
  by_cases h10 : base = "MOVED" ∨ base = "MOVELD"
  · rw [if_pos h10]
    exact ⟨rfl, rfl, rfl, Or.inr ⟨rfl, h10⟩⟩
  rw [if_neg h10]
  by_cases h11 : base = "STATUS" ∨ base = "WHERE"
  · rw [if_pos h11]
    exact ⟨rfl, rfl, rfl, Or.inl rfl⟩
  rw [if_neg h11]
  by_cases h12 : base = "OPEN" ∨ base = "CLOSE"
  · rw [if_pos h12]
    exact ⟨rfl, rfl, rfl, Or.inl rfl⟩
  rw [if_neg h12]
  exact ⟨rfl, rfl, rfl, Or.inl rfl⟩

theorem mockDispatch_fst (s : MockSerialHandler) (base : String)
    (rest : List String) : (mockDispatch s base rest).1 = true :=
  (mockDispatch_spec s base rest).1

theorem mockDispatch_fields (s : MockSerialHandler) (base : String)
    (rest : List String) :
    (mockDispatch s base rest).2._is_connected = s._is_connected ∧
    (mockDispatch s base rest).2.last_sent_command = s.last_sent_command ∧
    (mockDispatch s base rest).2.mock_joint_values.length =
      s.mock_joint_values.length := by
  refine ⟨(mockDispatch_spec s base rest).2.1,
    (mockDispatch_spec s base rest).2.2.1, ?_⟩
  rcases (mockDispatch_spec s base rest).2.2.2 with h | ⟨h, _⟩
  · rw [h]
  · rw [h, List.length_map]

theorem mockDispatch_joints_of_not_move (s : MockSerialHandler) (base : String)
    (rest : List String) (h1 : base ≠ "MOVED") (h2 : base ≠ "MOVELD") :
    (mockDispatch s base rest).2.mock_joint_values = s.mock_joint_values := by
  rcases (mockDispatch_spec s base rest).2.2.2 with h | ⟨_, hmv | hmv⟩
  · exact h
  · exact absurd hmv h1
  · exact absurd hmv h2

theorem mockDispatch_unrecognized (s : MockSerialHandler) (base : String)
    (rest : List String) (hk : base ∉ mockRecognized) :
    mockDispatch s base rest =
      (true, { s with receive_buffer :=
        s.receive_buffer ++ ["ERROR: Unknown command in mock"] }) := by
  have hknot : ∀ k ∈ mockRecognized, base ≠ k := fun k hkm he => hk (he ▸ hkm)
  unfold mockDispatch
  rw [if_neg (hknot "HOME" (by decide)),
    if_neg (fun h => hknot "LISTPV" (by decide) h.1),
    if_neg (fun h => hknot "LISTPV" (by decide) h.1),
    if_neg (hknot "DEFP" (by decide)),
    if_neg (fun h => hknot "SETPV" (by decide) h.1),
    if_neg (hknot "EDIT" (by decide)),
    if_neg (hknot "EXIT" (by decide)),
    if_neg (hknot "RUN" (by decide)),
    if_neg (hknot "SPEED" (by decide)),
    if_neg (fun h => h.elim (hknot "MOVED" (by decide)) (hknot "MOVELD" (by decide))),
    if_neg (fun h => h.elim (hknot "STATUS" (by decide)) (hknot "WHERE" (by decide))),
    if_neg (fun h => h.elim (hknot "OPEN" (by decide)) (hknot "CLOSE" (by decide)))]

theorem collect_early_false (cmd : String) (hne : pyUpper cmd ≠ "HOME") :
    ∀ (trace : List PollStep) (resp : List String) (lastRx start : Nat)
      (r : CollectResult),
      collectLoop cmd start resp lastRx trace = some r → r.early_break = false := by
  intro trace
  induction trace with
  | nil =>
    intro resp lastRx start r h
    simp [collectLoop] at h
  | cons step rest ih =>
    intro resp lastRx start r h
    unfold collectLoop at h
    split at h
    · injection h with h'
      subst h'
      rfl
    · split at h
      · split at h
        · rename_i hcond
          exact absurd hcond.1 hne
        · exact ih _ _ _ _ h
      · split at h
        · injection h with h'
          subst h'
          rfl
        · exact ih _ _ _ _ h

/- ## Claim theorems -/

/-- C1: in a session where no line is ever received, the collection loop
does NOT keep polling until the 90 s overall timeout: already at 1.6 s of
silence (the inter-message check) it exits with no lines, with the overall
timeout flag unset, and the formatted outcome is the generic fallback
note, not the `EmptyTimeout` outcome.  The second trace step is never
reached.  This contradicts the claim (and the code's own comment that the
main timeout will handle the empty case), because the `break` in the
silence branch is not guarded by `if responses:`. -/
theorem C1_empty_session_exits_early :
    wait_for_serial_response "STATUS" 0
        [⟨0, none, none, 1600⟩, ⟨1700, none, none, 1800⟩] =
      some { responses := [], timed_out := false
             inter_message_timed_out := false, early_break := false } ∧
    formatResult { responses := [], timed_out := false
                   inter_message_timed_out := false, early_break := false } =
      SerialOutcome.emptyFallback ∧
    1600 < SERIAL_RESPONSE_TIMEOUT := by
  decide

/-- C2 (counterexample): the command `HOME 1` has normalized keyword
`HOME`, yet when a line containing `Homing complete(robot)` arrives the
collector does not terminate early (the code compares the whole uppercased
command text against `"HOME"`, not the keyword): the session instead ends
by inter-message timeout with `early_break = false`. -/
theorem C2_counterexample :
    keyword_of "HOME 1" = some "HOME" ∧
    wait_for_serial_response "HOME 1" 0
        [⟨0, some "Homing complete(robot)", none, 100⟩, ⟨200, none, none, 1701⟩] =
      some { responses := ["Homing complete(robot)"], timed_out := false
             inter_message_timed_out := true, early_break := false } := by
  decide

/-- C2 (amended): the early-termination fast path fires exactly for
commands whose entire text uppercases to `HOME`: for such a command, as
soon as a popped line contains `Homing complete(robot)` (and the overall
timeout has not fired at that iteration), the loop appends the line,
attempts exactly one more pop (appending it if present) and stops with the
early-termination break; for every command whose uppercased text differs
from `HOME`, no session ever exits through the early-termination break. -/
theorem C2_early_termination :
    (∀ (cmd line : String) (start lastRx tC tA : Nat) (resp : List String)
        (fp : Option String) (rest : List PollStep),
        pyUpper cmd = "HOME" →
        strContains line homeMarker = true →
        ¬ (tC - start > SERIAL_RESPONSE_TIMEOUT) →
        collectLoop cmd start resp lastRx (⟨tC, some line, fp, tA⟩ :: rest) =
          some { responses := resp ++ [line] ++ fp.toList, timed_out := false
                 inter_message_timed_out := false, early_break := true }) ∧
    (∀ (cmd : String), pyUpper cmd ≠ "HOME" →
      ∀ (start : Nat) (trace : List PollStep) (r : CollectResult),
        wait_for_serial_response cmd start trace = some r →
        r.early_break = false) := by
  constructor
  · intro cmd line start lastRx tC tA resp fp rest h1 h2 h3
    unfold collectLoop
    rw [if_neg h3]
    simp only [if_pos (And.intro h1 h2), List.append_assoc]
  · intro cmd hne start trace r h
    exact collect_early_false cmd hne trace [] start start r h

/-- C2 (witness): the amended theorem applied at the command `home`
(uppercasing to `HOME`), a marker line with a trailing `OK` caught by the
single extra pop, and at the non-HOME command `MOVED` on a silent trace. -/
theorem C2_early_termination_witness :
    collectLoop "home" 0 [] 0 [⟨0, some "Homing complete(robot)", some "OK", 100⟩] =
      some { responses := [] ++ ["Homing complete(robot)"] ++ (some "OK").toList
             timed_out := false, inter_message_timed_out := false
             early_break := true } ∧
    (CollectResult.early_break
      { responses := [], timed_out := false
        inter_message_timed_out := false, early_break := false }) = false :=
  ⟨C2_early_termination.1 "home" "Homing complete(robot)" 0 0 0 100 [] (some "OK") []
      rfl rfl (by decide),
   C2_early_termination.2 "MOVED" (by decide) 0 [⟨0, none, none, 1600⟩]
      { responses := [], timed_out := false
        inter_message_timed_out := false, early_break := false } rfl⟩

/-- C3 (counterexample): the reader decodes with `errors='ignore'`, so the
invalid byte 0xFF in the sequence `[72, 0xFF, 105]` is dropped outright:
the decoded text is `Hi`, two characters long, containing no substitution
character — the decoded line does not retain a replacement mark for the
invalid byte, and differs from what replacement decoding would give. -/
theorem C3_counterexample :
    decode_ascii_ignore [72, 255, 105] = ['H', 'i'] ∧
    (decode_ascii_ignore [72, 255, 105]).length = 2 ∧
    Char.ofNat 0xFFFD ∉ decode_ascii_ignore [72, 255, 105] ∧
    decode_ascii_replace [72, 255, 105] = ['H', Char.ofNat 0xFFFD, 'i'] := by
  decide

/-- C3 (amended): decoding is total — it never raises — but invalid bytes
are silently dropped rather than replaced: the decoded characters are
exactly the in-range (< 0x80) bytes, in order, and every decoded character
is a plain ASCII character (in particular no substitution character is
ever produced). -/
theorem C3_decode_drops_invalid (bs : List Nat) :
    decode_ascii_ignore bs = (bs.filter (fun b => b < 128)).map Char.ofNat ∧
    ∀ c ∈ decode_ascii_ignore bs, c.toNat < 128 := by
  constructor
  · induction bs with
    | nil => rfl
    | cons b rest ih =>
      by_cases hb : b < 128 <;>
        simp [decode_ascii_ignore, List.filter, hb, ih]
  · intro c hc
    induction bs with
    | nil => simp [decode_ascii_ignore] at hc
    | cons b rest ih =>
      by_cases hb : b < 128
      · rw [decode_ascii_ignore, if_pos hb] at hc
        rcases List.mem_cons.1 hc with h' | h'
        · rw [h', char_toNat_ofNat_lt b hb]
          exact hb
        · exact ih h'
      · rw [decode_ascii_ignore, if_neg hb] at hc
        exact ih hc

/-- C3 (witness): the amended theorem evaluated at `[72, 0xFF, 105]`,
with the membership hypothesis discharged at the character `H`. -/
theorem C3_decode_drops_invalid_witness :
    decode_ascii_ignore [72, 255, 105] =
      (([72, 255, 105] : List Nat).filter (fun b => b < 128)).map Char.ofNat ∧
    Char.toNat 'H' < 128 :=
  ⟨(C3_decode_drops_invalid [72, 255, 105]).1,
   (C3_decode_drops_invalid [72, 255, 105]).2 'H' (by decide)⟩

/-- C4: FIFO discipline of the response buffer: popping as many times as
there are buffered lines returns them in order, each exactly once, ending
with an empty buffer; a pop on an empty buffer returns `none`; removing
the snapshots from an operation sequence changes neither the pop results
nor the final buffer; a lone snapshot returns a copy of the contents and
mutates nothing; and both handlers' `get_received_line` pop exactly the
head of their buffer. -/
theorem C4_fifo_pop_snapshot :
    (∀ ls : List String, popN ls.length ls = (ls.map some, [])) ∧
    bufPop [] = (none, []) ∧
    (∀ (ops : List BufOp) (buf : List String),
        (runBufOps ops buf).1 =
          (runBufOps (ops.filter (fun o => o = BufOp.pop)) buf).1 ∧
        (runBufOps ops buf).2.2 =
          (runBufOps (ops.filter (fun o => o = BufOp.pop)) buf).2.2) ∧
    (∀ buf : List String, runBufOps [BufOp.snap] buf = ([], [buf], buf)) ∧
    (∀ s : MockSerialHandler,
        (MockSerialHandler.get_received_line s).1 = s.receive_buffer.head? ∧
        (MockSerialHandler.get_received_line s).2.receive_buffer =
          s.receive_buffer.tail) ∧
    (∀ s : SerialHandler,
        (SerialHandler.get_received_line s).1 = s.receive_buffer.head? ∧
        (SerialHandler.get_received_line s).2.receive_buffer =
          s.receive_buffer.tail) := by
  refine ⟨?_, rfl, ?_, ?_, ?_, ?_⟩
  · intro ls
    induction ls with
    | nil => rfl
    | cons x xs ih => simp [popN, bufPop, ih]
  · intro ops
    induction ops with
    | nil => intro buf; exact ⟨rfl, rfl⟩
    | cons op rest ih =>
      intro buf
      cases op with
      | pop =>
        simp only [runBufOps, List.filter]
        exact ⟨by rw [(ih _).1], (ih _).2⟩
      | snap =>
        simp only [runBufOps, List.filter]
        exact ⟨(ih buf).1, (ih buf).2⟩
  · intro buf
    rfl
  · intro s
    cases h : s.receive_buffer <;>
      simp [MockSerialHandler.get_received_line, h]
  · intro s
    cases h : s.receive_buffer <;>
      simp [SerialHandler.get_received_line, h]

/-- C5: dispatching any command on a disconnected transport fails
immediately with the `False` result, performs no write (the physical
handler's state, including its write log and buffer, is returned
untouched), leaves the mock's state untouched as well, and the
orchestration layer then starts no collection session (it produces the
not-sent note instead). -/
theorem C5_not_connected_rejects (s : SerialHandler) (m : MockSerialHandler)
    (cmd : String) (start : Nat) (trace : List PollStep)
    (hs : s.is_connected = false) (hm : m.is_connected = false) :
    SerialHandler.send_command s cmd = (false, s) ∧
    MockSerialHandler.send_command m cmd = some (false, m) ∧
    gemini_dispatch m cmd start trace = some (DispatchResult.notSent, m) := by
  have hm' : m._is_connected = false := hm
  refine ⟨?_, ?_, ?_⟩
  · unfold SerialHandler.send_command
    rw [hs]
    simp
  · unfold MockSerialHandler.send_command
    rw [if_pos hm']
  · unfold gemini_dispatch
    rw [show MockSerialHandler.send_command m cmd = some (false, m) from by
      unfold MockSerialHandler.send_command
      rw [if_pos hm']]

/-- C5 (witness): the theorem applied to the freshly constructed (hence
disconnected) handlers and the command `HOME`. -/
theorem C5_not_connected_rejects_witness :
    SerialHandler.send_command SerialHandler.mkInit "HOME" =
      (false, SerialHandler.mkInit) ∧
    MockSerialHandler.send_command MockSerialHandler.mkInit "HOME" =
      some (false, MockSerialHandler.mkInit) ∧
    gemini_dispatch MockSerialHandler.mkInit "HOME" 0 [] =
      some (DispatchResult.notSent, MockSerialHandler.mkInit) :=
  C5_not_connected_rejects SerialHandler.mkInit MockSerialHandler.mkInit
    "HOME" 0 [] rfl rfl

/-- C6: dispatching a command whose normalized keyword is none of the
simulated transport's recognized keywords enqueues exactly one error line
and nothing else (in particular no `OK` acknowledgement); no session for
such a command can ever exit through the early-termination break; and on
the canonical trace (the error line arrives, then silence past 1.5 s) the
collector stops with the inter-message-timeout flag set. -/
theorem C6_unrecognized_keyword (s : MockSerialHandler) (cmd p0 : String)
    (rest : List String) (hc : s._is_connected = true)
    (hsplit : pySplit cmd = p0 :: rest) (hk : pyUpper p0 ∉ mockRecognized) :
    MockSerialHandler.send_command s cmd =
      some (true, { s with
        last_sent_command := some (pyUpper cmd),
        receive_buffer :=
          s.receive_buffer ++ ["ERROR: Unknown command in mock"] }) ∧
    (∀ (start : Nat) (trace : List PollStep) (r : CollectResult),
        wait_for_serial_response cmd start trace = some r →
        r.early_break = false) ∧
    wait_for_serial_response cmd 0
        [⟨0, some "ERROR: Unknown command in mock", none, 100⟩,
         ⟨200, none, none, 1701⟩] =
      some { responses := ["ERROR: Unknown command in mock"], timed_out := false
             inter_message_timed_out := true, early_break := false } := by
  have hknot : ∀ k ∈ mockRecognized, pyUpper p0 ≠ k :=
    fun k hkmem he => hk (he ▸ hkmem)
  have hne : pyUpper cmd ≠ "HOME" :=
    upper_ne_home_of_kw cmd p0 rest hsplit (hknot "HOME" (by decide))
  refine ⟨?_, ?_, ?_⟩
  · rw [send_command_connected s cmd p0 rest hc hsplit,
      mockDispatch_unrecognized _ _ _ hk]
  · intro start trace r h
    exact collect_early_false cmd hne trace [] start start r h
  · unfold wait_for_serial_response collectLoop
    rw [if_neg (by decide)]
    simp only
    rw [if_neg (fun h => hne h.1)]
    unfold collectLoop
    rw [if_neg (by decide)]
    simp only
    rw [if_pos (by decide)]
    rfl

/-- C6 (witness): the theorem applied to the connected mock and the
unrecognized command `FOO BAR` (keyword `FOO`). -/
theorem C6_unrecognized_keyword_witness :
    MockSerialHandler.send_command mockReady "FOO BAR" =
      some (true, { mockReady with
        last_sent_command := some (pyUpper "FOO BAR"),
        receive_buffer :=
          mockReady.receive_buffer ++ ["ERROR: Unknown command in mock"] }) ∧
    wait_for_serial_response "FOO BAR" 0
        [⟨0, some "ERROR: Unknown command in mock", none, 100⟩,
         ⟨200, none, none, 1701⟩] =
      some { responses := ["ERROR: Unknown command in mock"], timed_out := false
             inter_message_timed_out := true, early_break := false } :=
  ⟨(C6_unrecognized_keyword mockReady "FOO BAR" "FOO" ["BAR"] rfl (by decide)
      (by decide)).1,
   (C6_unrecognized_keyword mockReady "FOO BAR" "FOO" ["BAR"] rfl (by decide)
      (by decide)).2.2⟩

/-- C7: dispatching `LISTPV POSITION` on the connected simulated transport
enqueues exactly 7 lines — the header, one line per axis carrying the
current joint-position values in axis order, and the `OK`
acknowledgement — and returns `True`. -/
theorem C7_listpv_position (s : MockSerialHandler)
    (hc : s._is_connected = true) (hlen : s.mock_joint_values.length = 5) :
    MockSerialHandler.send_command s "LISTPV POSITION" =
      some (true, { s with
        last_sent_command := some "LISTPV POSITION",
        receive_buffer := s.receive_buffer ++
          ("Position POSITION :" ::
            positionLines s.mock_joint_values ++ ["OK"]) }) ∧
    ("Position POSITION :" :: positionLines s.mock_joint_values ++ ["OK"]).length = 7 := by
  constructor
  · obtain ⟨conn, buf, last, joints⟩ := s
    cases hc
    rfl
  · simp [positionLines, hlen]

/-- C7 (witness): the theorem applied to the freshly connected mock, whose
joint vector is the initial `[1111, -2222, 3333, -4444, 5555]`. -/
theorem C7_listpv_position_witness :
    MockSerialHandler.send_command mockReady "LISTPV POSITION" =
      some (true, { mockReady with
        last_sent_command := some "LISTPV POSITION",
        receive_buffer := mockReady.receive_buffer ++
          ("Position POSITION :" ::
            positionLines mockReady.mock_joint_values ++ ["OK"]) }) ∧
    ("Position POSITION :" ::
      positionLines mockReady.mock_joint_values ++ ["OK"]).length = 7 :=
  C7_listpv_position mockReady rfl rfl

/-- C8: each `MOVED` dispatch on the connected simulated transport adds
the same fixed delta (+100 counts) to every axis, so one dispatch leaves
the joint vector at `initial + delta` and two consecutive dispatches leave
it at exactly `initial + 2·delta`, both returning `True`. -/
theorem C8_moved_twice_adds_twice (s : MockSerialHandler)
    (hc : s._is_connected = true) :
    (MockSerialHandler.send_command s "MOVED").map
        (fun r => (r.1, r.2.mock_joint_values)) =
      some (true, s.mock_joint_values.map (fun v => v + 100)) ∧
    ((MockSerialHandler.send_command s "MOVED").bind
        (fun r => MockSerialHandler.send_command r.2 "MOVED")).map
        (fun r => (r.1, r.2.mock_joint_values)) =
      some (true, s.mock_joint_values.map (fun v => v + (100 + 100))) := by
  obtain ⟨conn, buf, last, joints⟩ := s
  cases hc
  constructor
  · rfl
  · show _ = some (true, joints.map (fun v => v + (100 + 100)))
    have : (MockSerialHandler.send_command
        { _is_connected := true, receive_buffer := buf, last_sent_command := last
          mock_joint_values := joints } "MOVED").bind
        (fun r => MockSerialHandler.send_command r.2 "MOVED") =
        MockSerialHandler.send_command
          { _is_connected := true
            receive_buffer := buf ++ ["Executing move...", "Move complete.", "OK"]
            last_sent_command := some "MOVED"
            mock_joint_values := joints.map (fun v => v + 100) } "MOVED" := rfl
    rw [this]
    show some (true, (joints.map (fun v => v + 100)).map (fun v => v + 100)) = _
    rw [List.map_map]
    have harith : ((fun v => v + 100) ∘ fun v : Int => v + 100) =
        (fun v : Int => v + (100 + 100)) := by
      funext v
      show v + 100 + 100 = v + (100 + 100)
      omega
    rw [harith]

/-- C8 (witness): the theorem applied to the freshly connected mock:
starting from `[1111, -2222, 3333, -4444, 5555]`, two `MOVED` dispatches
end at `[1311, -2022, 3533, -4244, 5755]`. -/
theorem C8_moved_twice_adds_twice_witness :
    (MockSerialHandler.send_command mockReady "MOVED").map
        (fun r => (r.1, r.2.mock_joint_values)) =
      some (true, mockReady.mock_joint_values.map (fun v => v + 100)) ∧
    ((MockSerialHandler.send_command mockReady "MOVED").bind
        (fun r => MockSerialHandler.send_command r.2 "MOVED")).map
        (fun r => (r.1, r.2.mock_joint_values)) =
      some (true, mockReady.mock_joint_values.map (fun v => v + (100 + 100))) :=
  C8_moved_twice_adds_twice mockReady rfl

/-- C9: invariants of the simulated joint vector: every non-raising
`send_command` preserves its length; any dispatched command whose
normalized keyword is neither `MOVED` nor `MOVELD` leaves its contents
untouched; and `connect`, `disconnect`, `get_received_line`, `send_value`
and `get_buffer_snapshot` never touch the vector at all. -/
theorem C9_joint_vector_invariant :
    (∀ (s : MockSerialHandler) (cmd : String) (b : Bool) (s' : MockSerialHandler),
        MockSerialHandler.send_command s cmd = some (b, s') →
        s'.mock_joint_values.length = s.mock_joint_values.length) ∧
    (∀ (s : MockSerialHandler) (cmd p0 : String) (rest : List String)
        (b : Bool) (s' : MockSerialHandler),
        MockSerialHandler.send_command s cmd = some (b, s') →
        pySplit cmd = p0 :: rest →
        pyUpper p0 ≠ "MOVED" → pyUpper p0 ≠ "MOVELD" →
        s'.mock_joint_values = s.mock_joint_values) ∧
    (∀ s : MockSerialHandler,
        ((MockSerialHandler.connect s).2).mock_joint_values = s.mock_joint_values) ∧
    (∀ s : MockSerialHandler,
        (MockSerialHandler.disconnect s).mock_joint_values = s.mock_joint_values) ∧
    (∀ s : MockSerialHandler,
        ((MockSerialHandler.get_received_line s).2).mock_joint_values =
          s.mock_joint_values) ∧
    (∀ s : MockSerialHandler, (MockSerialHandler.send_value s).2 = s) ∧
    (∀ s : MockSerialHandler,
        MockSerialHandler.get_buffer_snapshot s = s.receive_buffer) := by
  refine ⟨?_, ?_, fun s => rfl, fun s => rfl, ?_, fun s => rfl, fun s => rfl⟩
  · intro s cmd b s' h
    unfold MockSerialHandler.send_command at h
    split at h
    · simp only [Option.some.injEq, Prod.mk.injEq] at h
      rw [← h.2]
    · split at h
      · cases h
      · rename_i p0 rest heq
        simp only [Option.some.injEq] at h
        have h2 : (mockDispatch
            { s with last_sent_command := some (pyUpper cmd) }
            (pyUpper p0) rest).2 = s' :=
          congrArg Prod.snd h
        rw [← h2]
        exact (mockDispatch_fields _ _ _).2.2
  · intro s cmd p0 rest b s' h hsplit hm1 hm2
    rcases Bool.eq_false_or_eq_true s._is_connected with hct | hcf
    · rw [send_command_connected s cmd p0 rest hct hsplit] at h
      simp only [Option.some.injEq] at h
      have h2 : (mockDispatch
          { s with last_sent_command := some (pyUpper cmd) }
          (pyUpper p0) rest).2 = s' :=
        congrArg Prod.snd h
      rw [← h2]
      exact mockDispatch_joints_of_not_move _ _ _ hm1 hm2
    · unfold MockSerialHandler.send_command at h
      rw [if_pos hcf] at h
      simp only [Option.some.injEq, Prod.mk.injEq] at h
      rw [← h.2]
  · intro s
    unfold MockSerialHandler.get_received_line
    split <;> rfl

/-- C9 (witness): the invariant applied at concrete inputs: a `MOVED`
dispatch on the connected mock preserves the vector's length, a `STATUS`
dispatch (keyword neither `MOVED` nor `MOVELD`) leaves the vector's
contents unchanged, and `disconnect` does not touch the vector. -/
theorem C9_joint_vector_invariant_witness :
    ({ mockReady with
        last_sent_command := some "MOVED"
        receive_buffer :=
          mockReady.receive_buffer ++ ["Executing move...", "Move complete.", "OK"]
        mock_joint_values :=
          mockReady.mock_joint_values.map (fun v => v + 100)
      } : MockSerialHandler).mock_joint_values.length =
      mockReady.mock_joint_values.length ∧
    ({ mockReady with
        last_sent_command := some "STATUS"
        receive_buffer := mockReady.receive_buffer ++
          ["STATUS: Ready, Speed=50, Pos=(Simulated)", "OK"]
      } : MockSerialHandler).mock_joint_values = mockReady.mock_joint_values ∧
    (MockSerialHandler.disconnect mockReady).mock_joint_values =
      mockReady.mock_joint_values :=
  ⟨C9_joint_vector_invariant.1 mockReady "MOVED" true _ rfl,
   C9_joint_vector_invariant.2.1 mockReady "STATUS" "STATUS" [] true _ rfl rfl
     (by decide) (by decide),
   C9_joint_vector_invariant.2.2.2.1 mockReady⟩

/-- C10 (counterexample): with the mock connected, sending the empty
command (or a whitespace-only command) does not return `True`: the code
raises `IndexError` indexing `command.split()[0]` (modelled as `none`). -/
theorem C10_counterexample :
    mockReady._is_connected = true ∧
    MockSerialHandler.send_command mockReady "" = none ∧
    MockSerialHandler.send_command mockReady "   " = none := by
  decide

/-- C10 (amended): sending any command containing at least one
whitespace-separated token to the connected simulated transport returns
`True` — including unrecognized keywords and keywords missing a required
argument (bare `SETPV`, bare `LISTPV`), which take the
unrecognized-command branch; only the whitespace-only commands escape this
by raising. -/
theorem C10_connected_send_succeeds (m : MockSerialHandler) (cmd p0 : String)
    (rest : List String) (hc : m._is_connected = true)
    (hsplit : pySplit cmd = p0 :: rest) :
    ∃ m', MockSerialHandler.send_command m cmd = some (true, m') := by
  rw [send_command_connected m cmd p0 rest hc hsplit]
  refine ⟨(mockDispatch
    { m with last_sent_command := some (pyUpper cmd) } (pyUpper p0) rest).2, ?_⟩
  rw [← mockDispatch_fst
    { m with last_sent_command := some (pyUpper cmd) } (pyUpper p0) rest]

/-- C10 (witness): the amended theorem applied to the connected mock and
the argument-less command `SETPV` (keyword present, argument missing). -/
theorem C10_connected_send_succeeds_witness :
    (MockSerialHandler.send_command mockReady "SETPV").map (fun r => r.1) =
      some true := by
  obtain ⟨m', hm⟩ :=
    C10_connected_send_succeeds mockReady "SETPV" "SETPV" [] rfl (by decide)
  rw [hm]
  rfl

end Scorbot
